import Mathlib

/-!
Shallow embedding of `rmit` (aixoio/rmit, src/main.go), an AI commit-message
generator CLI, together with theorems settling the frozen claims about it.

Effectful Go code is modelled by passing the results of external calls
(environment variable, config file read, git subprocess outputs, HTTP
response) as explicit parameters; each pure Lean definition mirrors the
corresponding Go function body.
-/

namespace Rmit

/-! ## String helpers mirroring the Go standard library -/

/-- Whitespace test used by Go `strings.TrimSpace` (ASCII subset). -/
def isSpaceChar (c : Char) : Bool :=
  c = ' ' || c = '\t' || c = '\n' || c = '\r'

/-- Embedding of Go `strings.TrimSpace`: drop leading and trailing whitespace. -/
def trimSpace (s : String) : String :=
  ⟨((s.data.dropWhile isSpaceChar).reverse.dropWhile isSpaceChar).reverse⟩

/-- Helper for `splitLines`: accumulates the current segment (reversed). -/
def splitNlAux : List Char → List Char → List (List Char)
  | [], acc => [acc.reverse]
  | c :: rest, acc =>
    if c = '\n' then acc.reverse :: splitNlAux rest []
    else splitNlAux rest (c :: acc)

/-- Embedding of Go `strings.Split(s, "\n")`. -/
def splitLines (s : String) : List String :=
  (splitNlAux s.data []).map fun l => ⟨l⟩

/-- Embedding of Go `strings.Join(xs, ", ")`. -/
def joinComma : List String → String
  | [] => ""
  | [x] => x
  | x :: rest => x ++ ", " ++ joinComma rest

/-- Test whether `pat` occurs as a contiguous sublist of `l`
(substring containment on the character lists of strings). -/
def hasSubstr : List Char → List Char → Bool
  | _, [] => true
  | [], _ :: _ => false
  | c :: rest, pat =>
    if pat.isPrefixOf (c :: rest) then true else hasSubstr rest pat

/-- Index of the first occurrence of `pat` in `l`; `l.length + 1` when absent
(so a present pattern always compares smaller than an absent one). -/
def firstIdx : List Char → List Char → Nat
  | _, [] => 0
  | [], _ :: _ => 1
  | c :: rest, pat =>
    if pat.isPrefixOf (c :: rest) then 0 else firstIdx rest pat + 1

/-- Substring containment on strings. -/
def strContains (s pat : String) : Bool :=
  hasSubstr s.data pat.data

/-- First-occurrence index of `pat` inside `s` (characters), `s.length + 1` if absent. -/
def strIdx (s pat : String) : Nat :=
  firstIdx s.data pat.data

/-! ## Configuration (main.go: `Config`, `loadConfig`, `saveConfig`, `validateConfig`) -/

/-- main.go `Config` struct. -/
structure Config where
  APIKey : String
  APIURL : String
  DefaultModel : String
  deriving DecidableEq

/-- main.go constant `defaultAPIURL`. -/
def defaultAPIURL : String := "https://openrouter.ai/api/v1/chat/completions"

/-- main.go constant `defaultModel`. -/
def defaultModel : String := "openai/gpt-3.5-turbo"

/-- The three optional string entries `loadConfig` looks up in the parsed
JSON map of the config file (`configMap["api_key"]` etc.). -/
structure ConfigMap where
  api_key : Option String
  api_url : Option String
  default_model : Option String
  deriving DecidableEq

/-- Outcome of `os.ReadFile` + `json.Unmarshal` on the config file, as seen by
`loadConfig`: file absent, read error (warning, defaults kept), or file content
whose JSON parse either fails (warning, defaults kept) or yields a map. -/
inductive FileRead where
  | notFound
  | readError (e : String)
  | content (parsed : Option ConfigMap)
  deriving DecidableEq

/-- main.go `validateConfig` (non-nil branch): substitute defaults for empty
`APIURL` / `DefaultModel`, in place. The nil-pointer check has no counterpart
in this embedding, where a `Config` value always exists. -/
def validateConfig (config : Config) : Config :=
  { config with
    APIURL := if config.APIURL = "" then defaultAPIURL else config.APIURL
    DefaultModel := if config.DefaultModel = "" then defaultModel else config.DefaultModel }

/-- main.go `loadConfig`, with the external reads passed in: `homeDir` is the
result of `os.UserHomeDir` (`none` = error), `env` the value of
`OPENROUTER_API_KEY` (`""` = unset), `file` the config-file read.
The env value is applied first; file values are applied after it, each only
when present and non-empty. -/
def loadConfig (homeDir : Option String) (env : String) (file : FileRead) :
    Except String Config :=
  match homeDir with
  | none => .error "failed to get home directory"
  | some _ =>
    let config : Config := { APIKey := "", APIURL := defaultAPIURL, DefaultModel := defaultModel }
    let config := if env ≠ "" then { config with APIKey := env } else config
    -- The source applies the three file values by sequential `if` statements;
    -- they touch pairwise distinct fields, so they are rendered as one
    -- parallel record update.
    let config :=
      match file with
      | .content (some configMap) =>
        { APIKey :=
            match configMap.api_key with
            | some apiKey => if apiKey ≠ "" then apiKey else config.APIKey
            | none => config.APIKey
        , APIURL :=
            match configMap.api_url with
            | some apiURL => if apiURL ≠ "" then apiURL else config.APIURL
            | none => config.APIURL
        , DefaultModel :=
            match configMap.default_model with
            | some model => if model ≠ "" then model else config.DefaultModel
            | none => config.DefaultModel }
      | _ => config
    .ok (validateConfig config)

/-- The JSON object `saveConfig` writes: it always carries all three keys. -/
structure SavedConfigFile where
  api_key : String
  api_url : String
  default_model : String
  deriving DecidableEq

/-- The JSON object `saveConfig` writes to disk (keys `api_key`, `api_url`,
`default_model`), after its pre-save defaulting of empty URL/model. -/
def saveConfigMap (config : Config) : SavedConfigFile :=
  { api_key := config.APIKey
  , api_url := if config.APIURL = "" then defaultAPIURL else config.APIURL
  , default_model := if config.DefaultModel = "" then defaultModel else config.DefaultModel }

/-! ## Git collaborators (main.go: `getGitDiff`, `getChangedFiles`) -/

/-- Distinguishable error values produced by the git helpers
(each constructor corresponds to one `fmt.Errorf` site). -/
inductive GitError where
  | gitNotInstalled
  | notARepository
  | stagedDiffFailed (e : String)
  | unstagedDiffFailed (e : String)
  | noChanges
  | stagedFilesFailed (e : String)
  | unstagedFilesFailed (e : String)
  | noChangedFiles
  deriving DecidableEq

/-- Decidable equality for `Except`, used to compare modelled call results. -/
instance exceptDecEq {ε α : Type} [DecidableEq ε] [DecidableEq α] :
    DecidableEq (Except ε α) := fun a b =>
  match a, b with
  | .ok x, .ok y =>
    if h : x = y then .isTrue (by rw [h]) else .isFalse (by intro hc; cases hc; exact h rfl)
  | .error x, .error y =>
    if h : x = y then .isTrue (by rw [h]) else .isFalse (by intro hc; cases hc; exact h rfl)
  | .ok _, .error _ => .isFalse (by intro hc; cases hc)
  | .error _, .ok _ => .isFalse (by intro hc; cases hc)

/-- Results of the external git invocations as one environment record:
whether `git` is on `PATH`, whether `git rev-parse --is-inside-work-tree`
succeeds, and the `Output()` results of the four diff commands
(`.error` = non-zero exit). -/
structure GitEnv where
  gitInstalled : Bool
  isRepo : Bool
  stagedDiff : Except String String
  unstagedDiff : Except String String
  stagedNames : Except String String
  unstagedNames : Except String String
  deriving DecidableEq

/-- main.go `getGitDiff`: require git and a work tree, then return the staged
diff when non-empty, else the unstaged diff when non-empty, else fail. -/
def getGitDiff (env : GitEnv) : Except GitError String :=
  if env.gitInstalled then
    if env.isRepo then
      match env.stagedDiff with
      | .error e => .error (.stagedDiffFailed e)
      | .ok stagedOutput =>
        if stagedOutput.length = 0 then
          match env.unstagedDiff with
          | .error e => .error (.unstagedDiffFailed e)
          | .ok unstagedOutput =>
            if unstagedOutput.length = 0 then .error .noChanges
            else .ok unstagedOutput
        else .ok stagedOutput
    else .error .notARepository
  else .error .gitNotInstalled

/-- main.go `getChangedFiles`: require git (no work-tree check), then split the
name-only staged diff when non-empty, else the unstaged one, else fail. -/
def getChangedFiles (env : GitEnv) : Except GitError (List String) :=
  if env.gitInstalled then
    match env.stagedNames with
    | .error e => .error (.stagedFilesFailed e)
    | .ok stagedOutput =>
      if stagedOutput.length = 0 then
        match env.unstagedNames with
        | .error e => .error (.unstagedFilesFailed e)
        | .ok unstagedOutput =>
          if unstagedOutput.length = 0 then .error .noChangedFiles
          else .ok (splitLines (trimSpace unstagedOutput))
      else .ok (splitLines (trimSpace stagedOutput))
  else .error .gitNotInstalled

/-! ## Project context (main.go: `getProjectInfo`) -/

/-- main.go `getProjectInfo`, over the result of `filepath.Glob("*")`:
always starts from the literal prelude `"Project files include: "`, then
appends one fixed label per marker file found, in fixed order. -/
def getProjectInfo (files : List String) : String :=
  let hasGoMod := files.contains "go.mod"
  let hasPackageJSON := files.contains "package.json"
  let hasPomXML := files.contains "pom.xml"
  let hasCMake := files.contains "CMakeLists.txt"
  let hasPyProject := files.contains "pyproject.toml"
  "Project files include: "
    ++ (if hasGoMod then "Go project. " else "")
    ++ (if hasPackageJSON then "JavaScript/Node.js project. " else "")
    ++ (if hasPomXML then "Java/Maven project. " else "")
    ++ (if hasCMake then "C/C++ project with CMake. " else "")
    ++ (if hasPyProject then "Python project. " else "")

/-! ## Prompt composition (main.go: `generateCommitMessage`, lines 381-396) -/

/-- The fixed directive opening every prompt (main.go line 388). -/
def promptDirective : String :=
  "Generate a concise and descriptive git commit message based on the following changes. " ++
  "Follow the conventional commit format (e.g., feat:, fix:, docs:, style:, refactor:, test:, chore:). " ++
  "Only respond with the commit message, nothing else.\n\n"

/-- Prompt assembly of `generateCommitMessage`: directive, then the
project-information section when `projectInfo` is non-empty, then the
changed-file list when non-empty, then `"Changes:\n"` and the diff. -/
def buildPrompt (changedFiles : List String) (projectInfo : String) (diff : String) : String :=
  let fileListStr : String :=
    if changedFiles.length > 0 then "Changed files: " ++ joinComma changedFiles ++ "\n\n"
    else ""
  let prompt := promptDirective
  let prompt := if projectInfo ≠ "" then prompt ++ "Project information: " ++ projectInfo ++ "\n\n" else prompt
  prompt ++ fileListStr ++ "Changes:\n" ++ diff

/-! ## Completion response handling (main.go: `generateCommitMessage`, lines 433-453) -/

/-- Inner `message` object of an OpenRouter choice. -/
structure RespMessage where
  content : String
  deriving DecidableEq

/-- One entry of the `choices` array. -/
structure Choice where
  message : RespMessage
  deriving DecidableEq

/-- main.go `OpenRouterResponse`. -/
structure OpenRouterResponse where
  choices : List Choice
  deriving DecidableEq

/-- Distinguishable error values of the response-handling tail of
`generateCommitMessage` (one constructor per `fmt.Errorf` site). -/
inductive GenError where
  | readFailed (e : String)
  | apiError (body : String) (statusCode : Nat)
  | parseFailed (e : String)
  | emptyResponse
  deriving DecidableEq

/-- Response tail of `generateCommitMessage`: read the body, reject any status
other than 200, decode, reject an empty `choices`, and return the first
choice's content trimmed. `decode` stands for `json.Unmarshal`. -/
def processResponse (decode : String → Option OpenRouterResponse)
    (statusCode : Nat) (bodyRead : Except String String) : Except GenError String :=
  match bodyRead with
  | .error e => .error (.readFailed e)
  | .ok body =>
    if statusCode ≠ 200 then .error (.apiError body statusCode)
    else
      match decode body with
      | none => .error (.parseFailed body)
      | some openRouterResp =>
        match openRouterResp.choices with
        | [] => .error .emptyResponse
        | choice :: _ => .ok (trimSpace choice.message.content)

/-- `generateCommitMessage` as a whole, with every external call passed in:
the changed-file and project-info lookups (whose failures are logged and
tolerated), and the HTTP exchange. Returns the prompt that is embedded in the
request body together with the resulting message or error. -/
def generateCommitMessageRun (changedFilesRes : Except GitError (List String))
    (projectInfoRes : Except String String)
    (decode : String → Option OpenRouterResponse) (statusCode : Nat)
    (bodyRead : Except String String) (diff : String) :
    String × Except GenError String :=
  let changedFiles := match changedFilesRes with | .ok fs => fs | .error _ => []
  let projectInfo := match projectInfoRes with | .ok s => s | .error _ => ""
  (buildPrompt changedFiles projectInfo diff, processResponse decode statusCode bodyRead)

/-! ## Interactive refinement session (main.go: `rootCmd.Run`, lines 579-659) -/

/-- Mutable loop state of the refinement session: the current commit message
candidate, the diff captured at session start, and the model flag value. -/
structure SessionState where
  message : String
  diff : String
  model : String
  deriving DecidableEq

/-- Outcome of one iteration of the interactive loop. `fatalExit` carries the
local variable state at the moment `log.Fatalf` is reached. -/
inductive StepOutcome where
  | committed (message : String)
  | canceled
  | continueLoop (s : SessionState)
  | fatalExit (s : SessionState)
  | invalid (s : SessionState)
  deriving DecidableEq

/-- Diff argument the `g` branch passes to `generateCommitMessage`
(main.go line 598). -/
def detailedRequest (diff : String) : String :=
  diff ++ "\n\nPlease provide a more detailed commit message with additional context and explanations."

/-- Diff argument the `s` branch passes to `generateCommitMessage`
(main.go line 620): the previous message with a 50-character-limit instruction. -/
def summarizeRequest (message : String) : String :=
  "Please summarize this commit message in 50 characters or less:\n\n" ++ message

/-- Diff argument the `p` branch passes to `generateCommitMessage`
(main.go line 645). -/
def feedbackRequest (diff feedback : String) : String :=
  "Based on this diff:\n\n" ++ diff ++ "\n\nAnd considering this feedback: " ++ feedback ++ "\n\nGenerate an appropriate commit message."

/-- Go multi-value return convention of `generateCommitMessage`: every error
path in it is `return "", err`, so the `(string, error)` pair assigned by the
caller is `("", err)` on failure and `(text, nil)` on success. -/
def goReturn : Except GenError String → String × Option GenError
  | .ok text => (text, none)
  | .error e => ("", some e)

/-- One iteration of the interactive loop body over a normalized input line.
`gen` stands for the full `generateCommitMessage` call (keyed by its `diff`
argument); `feedback` is the line read by the `p` branch. The `g`, `r`, `p`
branches assign `message, err = generateCommitMessage(...)`, so `message`
receives the returned string even on error; the `s` branch assigns a fresh
`summary` variable and copies it into `message` only after the error check. -/
def sessionStep (gen : String → Except GenError String) (feedback : String)
    (s : SessionState) (input : String) : StepOutcome :=
  if input = "y" ∨ input = "yes" then .committed s.message
  else if input = "n" ∨ input = "no" then .canceled
  else if input = "g" then
    match goReturn (gen (detailedRequest s.diff)) with
    | (message, some _) => .fatalExit { s with message := message }
    | (message, none) => .continueLoop { s with message := message }
  else if input = "r" then
    match goReturn (gen s.diff) with
    | (message, some _) => .fatalExit { s with message := message }
    | (message, none) => .continueLoop { s with message := message }
  else if input = "s" then
    match goReturn (gen (summarizeRequest s.message)) with
    | (_, some _) => .fatalExit s
    | (summary, none) => .continueLoop { s with message := summary }
  else if input = "p" then
    match goReturn (gen (feedbackRequest s.diff feedback)) with
    | (message, some _) => .fatalExit { s with message := message }
    | (message, none) => .continueLoop { s with message := message }
  else .invalid s

/-! ## Derived definitions used in the statements below -/

/-- The api_key value that the config file effectively supplies to
`loadConfig`: the parsed map's `api_key` entry when it is present and
non-empty, nothing otherwise. -/
def fileApiKey : FileRead → Option String
  | .content (some configMap) =>
    match configMap.api_key with
    | some apiKey => if apiKey ≠ "" then some apiKey else none
    | none => none
  | _ => none

/-- The Standard-variant prompt of the end-to-end scenario: diff
`"+print('hi')\n"`, changed files `["app.py"]`, project descriptor
`"Python project."`. -/
def standardScenarioPrompt : String :=
  buildPrompt ["app.py"] "Python project." "+print(\x27hi\x27)\n"

/-! ## Helper lemmas -/

theorem length_pos_of_ne_empty (s : String) (h : s ≠ "") : 0 < s.data.length := by
  cases s with
  | mk d =>
    cases d with
    | nil => exact absurd rfl h
    | cons c l => simp

theorem validateConfig_APIKey (c : Config) : (validateConfig c).APIKey = c.APIKey := rfl

theorem validateConfig_pos (c : Config) :
    0 < (validateConfig c).APIURL.data.length ∧ 0 < (validateConfig c).DefaultModel.data.length := by
  constructor
  · show 0 < (if c.APIURL = "" then defaultAPIURL else c.APIURL).data.length
    split
    · decide
    · exact length_pos_of_ne_empty _ (by assumption)
  · show 0 < (if c.DefaultModel = "" then defaultModel else c.DefaultModel).data.length
    split
    · decide
    · exact length_pos_of_ne_empty _ (by assumption)

theorem ite_env_key (env : String) (a b : Config) (ha : a.APIKey = env) (hb : b.APIKey = "") :
    (if env ≠ "" then a else b).APIKey = env := by
  split
  · exact ha
  · rename_i hx
    simp only [ne_eq, not_not] at hx
    rw [hb, hx]

/-! ## Claim C1 -/

/-- C1 (counterexample): the claim that a non-empty `OPENROUTER_API_KEY`
environment value always wins is false. With the environment set to
`"ENVKEY"` and a config file whose `api_key` is `"FILEKEY"`, `loadConfig`
returns apiKey `"FILEKEY"`, not the environment value: the file entry is
applied after (and over) the environment value. -/
theorem c1_file_overrides_env_counterexample :
    loadConfig (some "/home/user") "ENVKEY"
        (.content (some ⟨some "FILEKEY", none, none⟩)) =
      .ok ⟨"FILEKEY", defaultAPIURL, defaultModel⟩ ∧
    ("FILEKEY" : String) ≠ "ENVKEY" := by
  decide

/-- C1 (amended): at load time the environment value is applied first and a
non-empty `api_key` entry of the config file then overrides it, so the
resulting apiKey is the file's non-empty `api_key` when there is one and the
environment value otherwise. (`loadConfig` performs no write, so nothing is
persisted back.) -/
theorem c1_apikey_resolution (homeDir env : String) (file : FileRead) (c : Config)
    (h : loadConfig (some homeDir) env file = .ok c) :
    c.APIKey = (fileApiKey file).getD env := by
  unfold loadConfig at h
  dsimp only at h
  cases file with
  | notFound =>
    simp only [Except.ok.injEq] at h
    subst h
    rw [validateConfig_APIKey]
    simp only [fileApiKey, Option.getD_none]
    exact ite_env_key env _ _ rfl rfl
  | readError e =>
    simp only [Except.ok.injEq] at h
    subst h
    rw [validateConfig_APIKey]
    simp only [fileApiKey, Option.getD_none]
    exact ite_env_key env _ _ rfl rfl
  | content parsed =>
    cases parsed with
    | none =>
      simp only [Except.ok.injEq] at h
      subst h
      rw [validateConfig_APIKey]
      simp only [fileApiKey, Option.getD_none]
      exact ite_env_key env _ _ rfl rfl
    | some m =>
      simp only [Except.ok.injEq] at h
      subst h
      rw [validateConfig_APIKey]
      cases hk : m.api_key with
      | none =>
        simp only [fileApiKey, hk, Option.getD_none]
        exact ite_env_key env _ _ rfl rfl
      | some k =>
        by_cases hke : k = ""
        · simp only [fileApiKey, hk, hke, ne_eq, not_true_eq_false, ite_false, Option.getD_none]
          exact ite_env_key env _ _ rfl rfl
        · simp only [fileApiKey, hk, ne_eq, hke, not_false_eq_true, ite_true, Option.getD_some]

/-- C1 witness: the amended resolution rule instantiated at a concrete load
with no config file, where the environment value survives. -/
theorem c1_apikey_resolution_witness :
    loadConfig (some "/home/user") "ENVKEY" .notFound =
      .ok ⟨"ENVKEY", defaultAPIURL, defaultModel⟩ ∧
    (⟨"ENVKEY", defaultAPIURL, defaultModel⟩ : Config).APIKey =
      (fileApiKey .notFound).getD "ENVKEY" :=
  ⟨by decide,
   c1_apikey_resolution "/home/user" "ENVKEY" .notFound
     ⟨"ENVKEY", defaultAPIURL, defaultModel⟩ (by decide)⟩

/-! ## Claim C2 -/

/-- C2 (counterexample): the claim that a failed regeneration leaves the
previous message intact at the moment of the fatal exit is false for the `g`
command. `generateCommitMessage` returns `("", err)` on failure and the loop
assigns `message, err = generateCommitMessage(...)` before checking `err`, so
at the fatal exit the message variable holds `""`, not `"fix: bug"`. -/
theorem c2_error_overwrite_counterexample :
    sessionStep (fun _ => .error .emptyResponse) "" ⟨"fix: bug", "DIFF", ""⟩ "g" =
      .fatalExit ⟨"", "DIFF", ""⟩ ∧
    ("" : String) ≠ "fix: bug" := by
  decide

/-- C2 (amended): on a successful generation all four regenerating commands
overwrite the current message with the new text; on a failed generation the
`s` command leaves the previous message intact at the fatal exit, while `g`,
`r` and `p` overwrite it with the empty string returned alongside the error
(Go multi-value assignment) before the fatal exit. -/
theorem c2_message_update_discipline (gen : String → Except GenError String)
    (feedback : String) (s : SessionState) :
    (sessionStep gen feedback s "g" =
      match gen (detailedRequest s.diff) with
      | .ok text => .continueLoop { s with message := text }
      | .error _ => .fatalExit { s with message := "" }) ∧
    (sessionStep gen feedback s "r" =
      match gen s.diff with
      | .ok text => .continueLoop { s with message := text }
      | .error _ => .fatalExit { s with message := "" }) ∧
    (sessionStep gen feedback s "p" =
      match gen (feedbackRequest s.diff feedback) with
      | .ok text => .continueLoop { s with message := text }
      | .error _ => .fatalExit { s with message := "" }) ∧
    (sessionStep gen feedback s "s" =
      match gen (summarizeRequest s.message) with
      | .ok text => .continueLoop { s with message := text }
      | .error _ => .fatalExit s) := by
  refine ⟨?_, ?_, ?_, ?_⟩
  · have h0 : sessionStep gen feedback s "g" =
        match goReturn (gen (detailedRequest s.diff)) with
        | (message, some _) => .fatalExit { s with message := message }
        | (message, none) => .continueLoop { s with message := message } := rfl
    rw [h0]
    cases gen (detailedRequest s.diff) <;> rfl
  · have h0 : sessionStep gen feedback s "r" =
        match goReturn (gen s.diff) with
        | (message, some _) => .fatalExit { s with message := message }
        | (message, none) => .continueLoop { s with message := message } := rfl
    rw [h0]
    cases gen s.diff <;> rfl
  · have h0 : sessionStep gen feedback s "p" =
        match goReturn (gen (feedbackRequest s.diff feedback)) with
        | (message, some _) => .fatalExit { s with message := message }
        | (message, none) => .continueLoop { s with message := message } := rfl
    rw [h0]
    cases gen (feedbackRequest s.diff feedback) <;> rfl
  · have h0 : sessionStep gen feedback s "s" =
        match goReturn (gen (summarizeRequest s.message)) with
        | (_, some _) => .fatalExit s
        | (summary, none) => .continueLoop { s with message := summary } := rfl
    rw [h0]
    cases gen (summarizeRequest s.message) <;> rfl

/-! ## Claim C3 -/

/-- C3 (confirmed): with git installed and inside a work tree, `getGitDiff`
returns the staged diff whenever it is non-empty (whatever the unstaged diff
is), returns the unstaged diff when the staged diff is empty and the unstaged
one is not, and fails with the no-changes error when both are empty. The
result is always exactly one of the two diffs, never a merge. -/
theorem c3_staged_precedence (env : GitEnv)
    (hg : env.gitInstalled = true) (hr : env.isRepo = true) :
    (∀ s, env.stagedDiff = .ok s → 0 < s.length → getGitDiff env = .ok s) ∧
    (∀ u, env.stagedDiff = .ok "" → env.unstagedDiff = .ok u → 0 < u.length →
      getGitDiff env = .ok u) ∧
    (env.stagedDiff = .ok "" → env.unstagedDiff = .ok "" →
      getGitDiff env = .error .noChanges) := by
  refine ⟨?_, ?_, ?_⟩
  · intro s hs hpos
    have hlen : ¬s.length = 0 := by omega
    simp [getGitDiff, hg, hr, hs, hlen]
  · intro u hs hu hpos
    have hlen : ¬u.length = 0 := by omega
    simp [getGitDiff, hg, hr, hs, hu, hlen]
  · intro hs hu
    simp [getGitDiff, hg, hr, hs, hu]

/-- C3 witness: a repository with both a staged and an unstaged diff yields
the staged diff. -/
theorem c3_staged_precedence_witness :
    getGitDiff ⟨true, true, .ok "STAGED", .ok "UNSTAGED", .ok "a.txt\n", .ok "b.txt\n"⟩ =
      .ok "STAGED" :=
  (c3_staged_precedence ⟨true, true, .ok "STAGED", .ok "UNSTAGED", .ok "a.txt\n", .ok "b.txt\n"⟩
    rfl rfl).1 "STAGED" rfl (by decide)

/-! ## Claim C4 -/

set_option maxRecDepth 100000 in
/-- C4 (counterexample): in the Standard-variant prompt of the scenario the
first occurrence of the diff text comes strictly after the changed file name,
which comes strictly after the project descriptor, refuting the claimed
relative order (diff before file name before descriptor). -/
theorem c4_order_counterexample :
    strIdx standardScenarioPrompt "+print(\x27hi\x27)\n" >
      strIdx standardScenarioPrompt "app.py" ∧
    strIdx standardScenarioPrompt "app.py" >
      strIdx standardScenarioPrompt "Python project." := by
  decide

set_option maxRecDepth 100000 in
/-- C4 (amended): the Standard-variant prompt of the scenario contains the
literal diff text, the changed file name and the project descriptor, in the
relative order descriptor before file name before diff (the code places the
project-information section first, then the changed-file list, then the
changes section with the diff last). -/
theorem c4_prompt_order :
    strContains standardScenarioPrompt "+print(\x27hi\x27)\n" = true ∧
    strContains standardScenarioPrompt "app.py" = true ∧
    strContains standardScenarioPrompt "Python project." = true ∧
    strIdx standardScenarioPrompt "Python project." <
      strIdx standardScenarioPrompt "app.py" ∧
    strIdx standardScenarioPrompt "app.py" <
      strIdx standardScenarioPrompt "+print(\x27hi\x27)\n" := by
  decide

/-! ## Claim C5 -/

set_option maxRecDepth 100000 in
/-- C5 (code bug): for a directory with none of the marker files,
`getProjectInfo` returns the bare prelude `"Project files include: "` rather
than an empty descriptor set, so the `projectInfo != ""` omission branch of
`generateCommitMessage` never fires and the composed prompt still contains
the project-information section. The spec's required behavior (omit the
section when no marker matches) is unreachable in the code. -/
theorem c5_project_section_never_omitted :
    getProjectInfo ["main.py", "src", "README.md"] = "Project files include: " ∧
    0 < (getProjectInfo ["main.py", "src", "README.md"]).length ∧
    strContains
      (buildPrompt ["main.py"] (getProjectInfo ["main.py", "src", "README.md"]) "+x\n")
      "Project information: " = true := by
  decide

/-! ## Claim C6 -/

/-- C6 (confirmed): the response handler never returns a result text for a
status code other than 200 (the only success status the code accepts); when
the status is 200 and the decoded body has an empty `choices` array it
returns the empty-response error; and on success it returns exactly the first
choice's content with surrounding whitespace trimmed, whatever the later
choices are. -/
theorem c6_response_contract (decode : String → Option OpenRouterResponse)
    (statusCode : Nat) (bodyRead : Except String String) :
    (∀ text, statusCode ≠ 200 → processResponse decode statusCode bodyRead ≠ .ok text) ∧
    (∀ body resp, bodyRead = .ok body → statusCode = 200 → decode body = some resp →
      resp.choices = [] →
      processResponse decode statusCode bodyRead = .error .emptyResponse) ∧
    (∀ body resp choice rest, bodyRead = .ok body → statusCode = 200 →
      decode body = some resp → resp.choices = choice :: rest →
      processResponse decode statusCode bodyRead = .ok (trimSpace choice.message.content)) := by
  refine ⟨?_, ?_, ?_⟩
  · intro text hst
    cases bodyRead with
    | error e => simp [processResponse]
    | ok body => simp [processResponse, hst]
  · intro body resp hb hst hdec hch
    subst hb hst
    simp [processResponse, hdec, hch]
  · intro body resp choice rest hb hst hdec hch
    subst hb hst
    simp [processResponse, hdec, hch]

/-- C6 witness: a 200 response decoding to an empty `choices` array yields the
empty-response error. -/
theorem c6_response_contract_witness :
    processResponse (fun _ => some ⟨[]⟩) 200 (.ok "BODY") = .error .emptyResponse :=
  (c6_response_contract (fun _ => some ⟨[]⟩) 200 (.ok "BODY")).2.1 "BODY" ⟨[]⟩
    rfl rfl rfl rfl

/-! ## Claim C7 -/

/-- C7 (confirmed): for every session state, the `s` command calls the
generator on exactly the instruction to compress to at most 50 characters
followed by the previous generated message; the state's diff is not part of
that payload (the payload expression mentions only `s.message`, so two states
differing only in their diff produce the same payload). -/
theorem c7_summarize_payload (gen : String → Except GenError String)
    (feedback : String) (s : SessionState) :
    sessionStep gen feedback s "s" =
      match gen ("Please summarize this commit message in 50 characters or less:\n\n" ++ s.message) with
      | .ok text => .continueLoop { s with message := text }
      | .error _ => .fatalExit s := by
  show sessionStep gen feedback s "s" =
    match gen (summarizeRequest s.message) with
    | .ok text => .continueLoop { s with message := text }
    | .error _ => .fatalExit s
  have h0 : sessionStep gen feedback s "s" =
      match goReturn (gen (summarizeRequest s.message)) with
      | (_, some _) => .fatalExit s
      | (summary, none) => .continueLoop { s with message := summary } := rfl
  rw [h0]
  cases gen (summarizeRequest s.message) <;> rfl

/-! ## Claim C8 -/

/-- C8 (confirmed): failure of the changed-file listing or of the project-info
lookup (or of both) is not fatal: `generateCommitMessage` still proceeds, its
generation result being exactly the response processing of the HTTP exchange
in every case, and the corresponding section is omitted from the composed
prompt. When only the changed-file listing fails the prompt is built with an
empty file list (no changed-files section) while the project information is
kept; when only the project-info lookup fails the prompt is built with empty
project information (no project-information section) while the file list is
kept; when both fail the directive is immediately followed by the changes
section. The warning logging itself is I/O outside this embedding. -/
theorem c8_lookup_failure_tolerated (e₁ : GitError) (e₂ : String)
    (projectInfo : String) (changedFiles : List String)
    (decode : String → Option OpenRouterResponse) (statusCode : Nat)
    (bodyRead : Except String String) (diff : String) :
    generateCommitMessageRun (.error e₁) (.ok projectInfo) decode statusCode bodyRead diff =
      (buildPrompt [] projectInfo diff, processResponse decode statusCode bodyRead) ∧
    generateCommitMessageRun (.ok changedFiles) (.error e₂) decode statusCode bodyRead diff =
      (buildPrompt changedFiles "" diff, processResponse decode statusCode bodyRead) ∧
    generateCommitMessageRun (.error e₁) (.error e₂) decode statusCode bodyRead diff =
      (buildPrompt [] "" diff, processResponse decode statusCode bodyRead) ∧
    buildPrompt [] projectInfo diff =
      (if projectInfo ≠ "" then
        promptDirective ++ "Project information: " ++ projectInfo ++ "\n\n"
       else promptDirective) ++ "Changes:\n" ++ diff ∧
    buildPrompt changedFiles "" diff =
      promptDirective ++
        (if changedFiles.length > 0 then "Changed files: " ++ joinComma changedFiles ++ "\n\n"
         else "") ++ "Changes:\n" ++ diff ∧
    buildPrompt [] "" diff = promptDirective ++ "Changes:\n" ++ diff := by
  refine ⟨rfl, rfl, rfl, ?_, rfl, ?_⟩
  · show ((if projectInfo ≠ "" then
        promptDirective ++ "Project information: " ++ projectInfo ++ "\n\n"
       else promptDirective) ++ "" ++ "Changes:\n") ++ diff = _
    rw [String.append_empty]
  · show (promptDirective ++ "" ++ "Changes:\n") ++ diff = _
    rw [String.append_empty]

/-! ## Claim C9 -/

/-- C9 (confirmed): every configuration successfully returned by `loadConfig`
has a non-empty APIURL and a non-empty DefaultModel (defaults are substituted
for empty values), and the file object written by `saveConfig` never carries
an empty `api_url` or `default_model` value. -/
theorem c9_config_nonempty :
    (∀ (homeDir env : String) (file : FileRead) (c : Config),
      loadConfig (some homeDir) env file = .ok c →
      0 < c.APIURL.data.length ∧ 0 < c.DefaultModel.data.length) ∧
    (∀ c : Config,
      0 < (saveConfigMap c).api_url.data.length ∧
      0 < (saveConfigMap c).default_model.data.length) := by
  constructor
  · intro homeDir env file c h
    unfold loadConfig at h
    dsimp only at h
    have hv : ∃ cfg, c = validateConfig cfg := by
      cases file with
      | notFound =>
        simp only [Except.ok.injEq] at h
        exact ⟨_, h.symm⟩
      | readError e =>
        simp only [Except.ok.injEq] at h
        exact ⟨_, h.symm⟩
      | content parsed =>
        cases parsed with
        | none =>
          simp only [Except.ok.injEq] at h
          exact ⟨_, h.symm⟩
        | some m =>
          simp only [Except.ok.injEq] at h
          exact ⟨_, h.symm⟩
    obtain ⟨cfg, rfl⟩ := hv
    exact validateConfig_pos cfg
  · intro c
    constructor
    · show 0 < (if c.APIURL = "" then defaultAPIURL else c.APIURL).data.length
      split
      · decide
      · exact length_pos_of_ne_empty _ (by assumption)
    · show 0 < (if c.DefaultModel = "" then defaultModel else c.DefaultModel).data.length
      split
      · decide
      · exact length_pos_of_ne_empty _ (by assumption)

/-- C9 witness: a load with no file and no environment key yields the default
URL and model, both non-empty. -/
theorem c9_config_nonempty_witness :
    loadConfig (some "/home/user") "" .notFound =
      .ok ⟨"", defaultAPIURL, defaultModel⟩ ∧
    0 < (⟨"", defaultAPIURL, defaultModel⟩ : Config).APIURL.data.length ∧
    0 < (⟨"", defaultAPIURL, defaultModel⟩ : Config).DefaultModel.data.length :=
  ⟨by decide,
   c9_config_nonempty.1 "/home/user" "" .notFound
     ⟨"", defaultAPIURL, defaultModel⟩ (by decide)⟩

/-! ## Claim C10 -/

/-- C10 (confirmed): `getChangedFiles` reads only the git-availability flag and
the name-only diff results, never the work-tree flag: its result is invariant
under changes to `isRepo`, and in a non-repository directory with git
installed it cannot fail with the not-a-repository error (its possible errors
are the staged/unstaged command failures and the no-changed-files error),
whereas `getGitDiff` fails there with exactly the not-a-repository error. -/
theorem c10_no_repo_check (env : GitEnv)
    (hg : env.gitInstalled = true) (hr : env.isRepo = false) :
    getGitDiff env = .error .notARepository ∧
    (∀ b₁ b₂ : Bool,
      getChangedFiles { env with isRepo := b₁ } = getChangedFiles { env with isRepo := b₂ }) ∧
    (∀ e, getChangedFiles env = .error e → e ≠ .notARepository) := by
  refine ⟨?_, ?_, ?_⟩
  · simp [getGitDiff, hg, hr]
  · intro b₁ b₂
    rfl
  · intro e he
    unfold getChangedFiles at he
    rw [hg] at he
    simp only [if_true] at he
    cases hs : env.stagedNames with
    | error e0 =>
      simp only [hs] at he
      simp only [Except.error.injEq] at he
      subst he
      intro hc
      cases hc
    | ok sOut =>
      simp only [hs] at he
      by_cases hlen : sOut.length = 0
      · rw [if_pos hlen] at he
        cases hu : env.unstagedNames with
        | error e0 =>
          simp only [hu] at he
          simp only [Except.error.injEq] at he
          subst he
          intro hc
          cases hc
        | ok uOut =>
          simp only [hu] at he
          by_cases hul : uOut.length = 0
          · rw [if_pos hul] at he
            simp only [Except.error.injEq] at he
            subst he
            intro hc
            cases hc
          · rw [if_neg hul] at he
            cases he
      · rw [if_neg hlen] at he
        cases he

/-- C10 witness: a non-repository directory with git installed, where the
name-only diff command fails as git does outside a work tree: `getGitDiff`
reports the not-a-repository error while `getChangedFiles` reports a staged
files failure instead. -/
theorem c10_no_repo_check_witness :
    getGitDiff ⟨true, false, .ok "", .ok "", .error "exit status 128", .ok ""⟩ =
      .error .notARepository :=
  (c10_no_repo_check ⟨true, false, .ok "", .ok "", .error "exit status 128", .ok ""⟩
    rfl rfl).1

end Rmit
